import Mathlib

/-!
# Verification of the Robust-Serial protocol stack

Shallow embedding of the Robust-Serial C++ protocol stack (COBS framing,
CRC-16 link layer, connection-oriented transport layer) together with
proofs and refutations of the specification's claims about it.

Byte buffers are modelled as `List Nat` whose elements are byte values;
machine arithmetic is made explicit (`% 256`, `% 2^32`, `Int` where C
integer promotion applies).  Fallible operations return `Except Int`,
carrying the C error codes.
-/

set_option maxRecDepth 131072

namespace RobustSerial

/-! ## COBS (src/src/cobs.cpp, src/unnamed/part_004 = cobs.hpp) -/

/-- Constant `COBS_BLOCK_SIZE` from cobs.hpp. -/
def COBS_BLOCK_SIZE : Nat := 254

/-- Constant `COBS_MAX_CODE` from cobs.hpp. -/
def COBS_MAX_CODE : Nat := 255

/-- Constant `COBS::COBS_ERROR_INVALID_INPUT` from cobs.hpp. -/
def COBS_ERROR_INVALID_INPUT : Int := -6

/-- Constant `COBS::COBS_ERROR_OUTPUT_TOO_SMALL` from cobs.hpp. -/
def COBS_ERROR_OUTPUT_TOO_SMALL : Int := -7

/-- Constant `COBS::COBS_ERROR_INCOMPLETE` from cobs.hpp. -/
def COBS_ERROR_INCOMPLETE : Int := -8

/-- The encoder loop of `COBS::encode` (cobs.cpp lines 47-76).

The C loop writes, for every segment of the input delimited by zero bytes
(or closed by the run counter `code` reaching `COBS_MAX_CODE`), a code
byte at the reserved `code_index` followed by the literal bytes of the
segment; the final `output[code_index] = code` closes the last segment.
Here `block` is the list of literal bytes accumulated in the current
segment (so the C `code` equals `block.length + 1`), and the emitted
output is the concatenation of the closed segments in order. -/
def cobsEncodeLoop : List Nat → List Nat → List Nat
  | [], block => (block.length + 1) :: block
  | b :: rest, block =>
    if b = 0 then
      ((block.length + 1) :: block) ++ cobsEncodeLoop rest []
    else if block.length + 2 = COBS_MAX_CODE then
      (COBS_MAX_CODE :: (block ++ [b])) ++ cobsEncodeLoop rest []
    else
      cobsEncodeLoop rest (block ++ [b])

/-- Embeds `COBS::encode` (cobs.cpp lines 20-77).  The `input`/`output` pointers
are modelled as lists, so the null checks disappear; the length guards are
kept exactly.  Returns the encoded bytes (the C function returns
`write_index`, i.e. their count, with the bytes left in `output`). -/
def cobsEncodeC (input : List Nat) (output_size : Nat) : Except Int (List Nat) :=
  if input.length = 0 then .ok []
  else if input.length > COBS_BLOCK_SIZE then .error COBS_ERROR_INVALID_INPUT
  else if output_size < input.length + input.length / 254 + 1 then
    .error COBS_ERROR_OUTPUT_TOO_SMALL
  else .ok (cobsEncodeLoop input [])

/-- Index of the first `COBS_DELIMITER` (`0x00`) byte, as scanned by the
`frame_end` loop of `COBS::decode` (cobs.cpp lines 112-119). -/
def findDelim : List Nat → Option Nat
  | [] => none
  | b :: rest => if b = 0 then some 0 else (findDelim rest).map (· + 1)

/-- The block-decoding loop of `COBS::decode` (cobs.cpp lines 141-171),
applied to the bytes `[0..frame_end)` of the input.  Each code byte `c`
is followed by `c - 1` literal bytes; a zero byte is re-inserted after
them unless `c = COBS_MAX_CODE` or the block is exhausted.  A zero code
byte or a code over-running the block is `COBS_ERROR_INVALID_INPUT`
(modelled as `none`). -/
def cobsDecodeBlock : List Nat → Option (List Nat)
  | [] => some []
  | code :: rest =>
    if code = 0 then none
    else if rest.length < code - 1 then none
    else
      match cobsDecodeBlock (rest.drop (code - 1)) with
      | none => none
      | some tail =>
        some (rest.take (code - 1) ++
          (if code < COBS_MAX_CODE ∧ rest.drop (code - 1) ≠ [] then [0] else []) ++ tail)
  termination_by l => l.length
  decreasing_by
    simp only [List.length_drop, List.length_cons]
    omega

/-- Embeds `COBS::decode` (cobs.cpp lines 96-175).  Returns the decoded bytes
together with `consumed_length`.  On `input_length == 0` the C function
sets `consumed_length = 0` and returns `0`; on a delimiter at position 0
it consumes one byte and returns the empty payload. -/
def cobsDecodeC (input : List Nat) (output_size : Nat) :
    Except Int (List Nat × Nat) :=
  if input.length = 0 then .ok ([], 0)
  else
    match findDelim input with
    | none => .error COBS_ERROR_INCOMPLETE
    | some frame_end =>
      if frame_end = 0 then .ok ([], 1) -- empty frame
      else if output_size < frame_end then .error COBS_ERROR_OUTPUT_TOO_SMALL
      else
        match cobsDecodeBlock (input.take frame_end) with
        | none => .error COBS_ERROR_INVALID_INPUT
        | some out => .ok (out, frame_end + 1)

/-! ### COBS lemmas -/

theorem cobsEncodeLoop_ne_nil : ∀ (S block : List Nat), cobsEncodeLoop S block ≠ [] := by
  intro S
  induction S with
  | nil => intro block; simp [cobsEncodeLoop]
  | cons b rest ih =>
    intro block
    simp only [cobsEncodeLoop]
    by_cases hb : b = 0
    · simp [hb]
    · by_cases hf : block.length + 2 = COBS_MAX_CODE
      · simp [hb, hf]
      · simpa [hb, hf] using ih (block ++ [b])

theorem zero_not_mem_cobsEncodeLoop :
    ∀ (S block : List Nat), 0 ∉ block → 0 ∉ cobsEncodeLoop S block := by
  intro S
  induction S with
  | nil =>
    intro block h0
    simp only [cobsEncodeLoop, List.mem_cons, not_or]
    exact ⟨by omega, h0⟩
  | cons b rest ih =>
    intro block h0
    simp only [cobsEncodeLoop]
    by_cases hb : b = 0
    · rw [if_pos hb]
      intro h
      rcases List.mem_append.mp h with h1 | h1
      · rcases List.mem_cons.mp h1 with h2 | h2
        · omega
        · exact h0 h2
      · exact ih [] (by simp) h1
    · rw [if_neg hb]
      by_cases hf : block.length + 2 = COBS_MAX_CODE
      · rw [if_pos hf]
        intro h
        rcases List.mem_append.mp h with h1 | h1
        · rcases List.mem_cons.mp h1 with h2 | h2
          · exact absurd h2.symm (by simp [COBS_MAX_CODE])
          · rcases List.mem_append.mp h2 with h3 | h3
            · exact h0 h3
            · exact hb (List.mem_singleton.mp h3).symm
        · exact ih [] (by simp) h1
      · rw [if_neg hf]
        refine ih (block ++ [b]) ?_
        intro h
        rcases List.mem_append.mp h with h1 | h1
        · exact h0 h1
        · exact hb (List.mem_singleton.mp h1).symm

theorem cobsEncodeLoop_length :
    ∀ (S block : List Nat), block.length + S.length ≤ 254 →
    (cobsEncodeLoop S block).length ≤ block.length + S.length + 2 := by
  intro S
  induction S with
  | nil =>
    intro block _
    simp [cobsEncodeLoop]
  | cons b rest ih =>
    intro block hlen
    simp only [List.length_cons] at hlen
    simp only [cobsEncodeLoop]
    by_cases hb : b = 0
    · rw [if_pos hb]
      have h1 := ih [] (by simp only [List.length_nil]; omega)
      simp only [List.length_nil, Nat.zero_add] at h1
      simp only [List.length_append, List.length_cons]
      omega
    · rw [if_neg hb]
      by_cases hf : block.length + 2 = COBS_MAX_CODE
      · rw [if_pos hf]
        have hbl : block.length = 253 := by
          simp only [COBS_MAX_CODE] at hf; omega
        have hrest : rest = [] := List.eq_nil_of_length_eq_zero (by omega)
        subst hrest
        simp only [cobsEncodeLoop, List.length_append, List.length_cons, List.length_nil]
        omega
      · rw [if_neg hf]
        have h1 := ih (block ++ [b])
          (by simp only [List.length_append, List.length_cons, List.length_nil]; omega)
        simp only [List.length_append, List.length_cons, List.length_nil] at h1 ⊢
        omega

theorem findDelim_append_zero :
    ∀ (E : List Nat), 0 ∉ E → findDelim (E ++ [0]) = some E.length := by
  intro E
  induction E with
  | nil => intro _; simp [findDelim]
  | cons e E ih =>
    intro h0
    have he : e ≠ 0 := fun h => h0 (by simp [h])
    have hE : findDelim (E ++ [0]) = some E.length :=
      ih (fun h => h0 (List.mem_cons_of_mem _ h))
    simp [List.cons_append, findDelim, if_neg he, hE]

theorem findDelim_lt_length :
    ∀ (l : List Nat) (i : Nat), findDelim l = some i → i < l.length := by
  intro l
  induction l with
  | nil => intro i h; simp [findDelim] at h
  | cons b rest ih =>
    intro i h
    simp only [findDelim] at h
    by_cases hb : b = 0
    · simp [hb] at h
      simp only [List.length_cons]
      omega
    · simp only [if_neg hb, Option.map_eq_some'] at h
      obtain ⟨j, hj, hji⟩ := h
      have := ih j hj
      simp only [List.length_cons]
      omega

/-- Unfolding of `cobsDecodeBlock` at a cons cell whose code byte and
length checks pass. -/
theorem cobsDecodeBlock_cons (code : Nat) (rest : List Nat) (h0 : code ≠ 0)
    (hlen : ¬ rest.length < code - 1) :
    cobsDecodeBlock (code :: rest) =
      match cobsDecodeBlock (rest.drop (code - 1)) with
      | none => none
      | some tail =>
        some (rest.take (code - 1) ++
          (if code < COBS_MAX_CODE ∧ rest.drop (code - 1) ≠ [] then [0] else []) ++ tail) := by
  rw [cobsDecodeBlock]
  rw [if_neg h0, if_neg hlen]

/-- Decoding inverts encoding: the central induction.  `block` is the
current run of literals of the encoder; the hypothesis
`block.length + S.length ≤ 254` confines the run-counter flush to the
very last byte, matching the `COBS_BLOCK_SIZE` guard of `COBS::encode`. -/
theorem cobsDecodeBlock_cobsEncodeLoop :
    ∀ (S block : List Nat), 0 ∉ block → block.length + S.length ≤ 254 →
    cobsDecodeBlock (cobsEncodeLoop S block) = some (block ++ S) := by
  intro S
  induction S with
  | nil =>
    intro block _ _
    simp only [cobsEncodeLoop, List.length_nil, List.append_nil]
    rw [cobsDecodeBlock_cons _ _ (by omega) (by omega)]
    simp [Nat.add_sub_cancel, List.drop_length, List.take_length, cobsDecodeBlock]
  | cons b rest ih =>
    intro block h0 hlen
    simp only [List.length_cons] at hlen
    simp only [cobsEncodeLoop]
    by_cases hb : b = 0
    · -- zero byte: the current segment is closed and a fresh one starts
      have hE := cobsEncodeLoop_ne_nil rest []
      have hIH := ih [] (List.not_mem_nil 0) (by simp only [List.length_nil]; omega)
      subst hb
      rw [if_pos rfl]
      simp only [List.cons_append]
      rw [cobsDecodeBlock_cons _ _ (by omega)
        (by simp only [List.length_append, Nat.add_sub_cancel]; omega)]
      rw [Nat.add_sub_cancel, List.drop_left, List.take_left, hIH]
      have hcode : block.length + 1 < COBS_MAX_CODE := by
        simp only [COBS_MAX_CODE]; omega
      simp [hcode, hE]
    · by_cases hf : block.length + 2 = COBS_MAX_CODE
      · -- run-counter flush: only possible with nothing left after `b`
        have hbl : block.length = 253 := by
          simp only [COBS_MAX_CODE] at hf; omega
        have hrest : rest = [] := by
          have : rest.length = 0 := by omega
          exact List.eq_nil_of_length_eq_zero this
        subst hrest
        rw [if_neg hb, if_pos hf]
        simp only [cobsEncodeLoop, List.length_nil, List.cons_append, List.nil_append]
        rw [cobsDecodeBlock_cons _ _ (by simp [COBS_MAX_CODE])
          (by simp only [COBS_MAX_CODE, List.length_append, List.length_cons, List.length_nil,
                hbl]; omega)]
        have hMC : COBS_MAX_CODE - 1 = 254 := by simp [COBS_MAX_CODE]
        have hkey : (254 : Nat) = (block ++ [b]).length := by simp [hbl]
        rw [hMC, hkey, List.drop_left, List.take_left]
        rw [cobsDecodeBlock_cons _ _ (by omega) (by simp)]
        simp only [Nat.add_sub_cancel, List.length_nil, List.drop_nil, List.take_nil,
          cobsDecodeBlock]
        simp [COBS_MAX_CODE]
      · -- plain literal: `b` joins the current segment
        have hIH := ih (block ++ [b])
          (by
            intro hmem
            rcases List.mem_append.mp hmem with h' | h'
            · exact h0 h'
            · exact hb (List.mem_singleton.mp h').symm)
          (by simp only [List.length_append, List.length_cons, List.length_nil]; omega)
        rw [if_neg hb, if_neg hf, hIH]
        simp

/-- C3: For every byte sequence `S` with `|S| ≤ 254`, COBS decoding of the
encoding of `S` followed by the `0x00` delimiter yields `S` again, the
reported consumed count equals the encoded length plus one, and the
encoder's output bytes never include `0x00`.  Buffer capacities are the
ones the link layer passes (`LINK_MAX_FRAME_SIZE = 257`). -/
theorem C3_cobs_roundtrip (S : List Nat) (hlen : S.length ≤ 254)
    (hbytes : ∀ b ∈ S, b < 256) :
    ∃ E, cobsEncodeC S 257 = .ok E ∧ 0 ∉ E ∧
      cobsDecodeC (E ++ [0]) 257 = .ok (S, E.length + 1) := by
  by_cases hS : S.length = 0
  · -- empty input: the encoder emits nothing, the lone delimiter consumes 1
    have : S = [] := List.eq_nil_of_length_eq_zero hS
    subst this
    refine ⟨[], by simp [cobsEncodeC], by simp, ?_⟩
    simp [cobsDecodeC, findDelim]
  · refine ⟨cobsEncodeLoop S [], ?_, ?_, ?_⟩
    · rw [cobsEncodeC]
      rw [if_neg hS]
      rw [if_neg (by simp only [COBS_BLOCK_SIZE, not_lt]; omega)]
      rw [if_neg (by omega)]
    · exact zero_not_mem_cobsEncodeLoop S [] (List.not_mem_nil 0)
  -- decoding side
    · have h0E : 0 ∉ cobsEncodeLoop S [] :=
        zero_not_mem_cobsEncodeLoop S [] (List.not_mem_nil 0)
      have hEne := cobsEncodeLoop_ne_nil S []
      have hElen : (cobsEncodeLoop S []).length ≤ S.length + 2 := by
        have := cobsEncodeLoop_length S [] (by simpa using hlen)
        simpa using this
      obtain ⟨k, hk⟩ : ∃ k, (cobsEncodeLoop S []).length = k + 1 := by
        rcases Nat.exists_eq_succ_of_ne_zero
          (fun h => hEne (List.eq_nil_of_length_eq_zero h)) with ⟨k, hk⟩
        exact ⟨k, hk⟩
      have hfd := findDelim_append_zero _ h0E
      rw [hk] at hfd
      have htake : (cobsEncodeLoop S [] ++ [0]).take (k + 1) = cobsEncodeLoop S [] := by
        rw [← hk]; exact List.take_left _ _
      have hblock := cobsDecodeBlock_cobsEncodeLoop S [] (List.not_mem_nil 0) (by simpa using hlen)
      rw [cobsDecodeC]
      rw [if_neg (by simp)]
      rw [hfd]
      have h1 : ¬(k + 1 = 0) := by omega
      have h2 : ¬(257 < k + 1) := by omega
      simp only [h1, h2, if_false, htake, hblock]
      rw [← hk]
      simp

/-- Witness for `C3_cobs_roundtrip` at `S = [1, 0, 2]`. -/
theorem C3_cobs_roundtrip_witness :
    ([1, 0, 2] : List Nat).length ≤ 254 ∧
    ∃ E, cobsEncodeC [1, 0, 2] 257 = .ok E ∧ 0 ∉ E ∧
      cobsDecodeC (E ++ [0]) 257 = .ok ([1, 0, 2], E.length + 1) :=
  ⟨by decide, C3_cobs_roundtrip [1, 0, 2] (by decide) (by decide)⟩

/-! ## CRC-16 (src/include/crc16.hpp; crc16.cpp is not under src) -/

/-- One shift step of CRC-16-CCITT, 16-bit arithmetic made explicit. -/
def crc16Shift (crc : Nat) : Nat :=
  if crc &&& 0x8000 ≠ 0 then ((crc <<< 1) ^^^ 0x1021) % 65536
  else (crc <<< 1) % 65536

/-- Eight shift steps (one input byte). -/
def crc16Rounds : Nat → Nat → Nat
  | 0, crc => crc
  | n + 1, crc => crc16Rounds n (crc16Shift crc)

/-- Modelled from the spec: `CRC16::calculate` — the table implementation
(crc16.cpp) is not under src; crc16.hpp declares it with
`CRC_POLYNOMIAL = 0x1021` and `CRC_INITIAL_VALUE = 0xFFFF`, and the spec
fixes "polynomial 0x1021, initial 0xFFFF, no reflection, no final XOR"
(the standard bit-serial form of the table-driven computation). -/
def crc16 (data : List Nat) : Nat :=
  data.foldl (fun crc b => crc16Rounds 8 (crc ^^^ ((b % 256) <<< 8))) 0xFFFF

/-! ## Link layer (src/src/link_layer.cpp)

The constants come from `link_layer.hpp`, which is under src inside
`include/system_utils.hpp` (lines 20-235), together with
`config.hpp` (`COBS_MAX_BLOCK_SIZE = 254`, `COBS_MAX_ENCODED_SIZE =
257`, `ERROR_RANGE_LINK = -64`). -/

/-- Constant `LINK_FRAME_TYPE_DATA` (link_layer.hpp). -/
def LINK_FRAME_TYPE_DATA : Nat := 0x01

/-- Constant `LINK_HEADER_SIZE` — type(1) + length(1). -/
def LINK_HEADER_SIZE : Nat := 2

/-- Constant `LINK_CRC_SIZE` — CRC16 size in bytes. -/
def LINK_CRC_SIZE : Nat := 2

/-- Constant `LINK_MIN_FRAME_SIZE = LINK_HEADER_SIZE + LINK_CRC_SIZE`. -/
def LINK_MIN_FRAME_SIZE : Nat := 4

/-- Constant `LINK_MAX_PAYLOAD_SIZE = COBS_MAX_BLOCK_SIZE -
LINK_HEADER_SIZE - LINK_CRC_SIZE` (250). -/
def LINK_MAX_PAYLOAD_SIZE : Nat := 250

/-- Constant `LINK_MAX_FRAME_SIZE = COBS_MAX_BLOCK_SIZE` (254).  This is
the output capacity the link layer hands to both `COBS::encode` and
`COBS::decode`; note it is smaller than `COBS_MAX_ENCODED_SIZE` (257). -/
def LINK_MAX_FRAME_SIZE : Nat := 254

/-- Constant `LINK_OUTGOING_BUFFER_SIZE = COBS_MAX_ENCODED_SIZE * 2`
(514). -/
def LINK_OUTGOING_BUFFER_SIZE : Nat := 514

/-- Constant `LINK_SUCCESS = LAYER_SUCCESS` (0). -/
def LINK_SUCCESS : Int := 0

/-- Constant `LINK_ERROR_GENERAL = ERROR_RANGE_LINK` (-64). -/
def LINK_ERROR_GENERAL : Int := -64

/-- Constant `LINK_ERROR_INVALID_PARAM = ERROR_RANGE_LINK - 5` (-69). -/
def LINK_ERROR_INVALID_PARAM : Int := -69

/-- Constant `LINK_ERROR_BUFFER_FULL = ERROR_RANGE_LINK - 3` (-67). -/
def LINK_ERROR_BUFFER_FULL : Int := -67

/-- Enum `LinkState` (link_layer.hpp): READY, SENDING, ERROR. -/
inductive LinkState where
  | ready
  | sending
  | error
  deriving DecidableEq

/-- Enum `LinkLayerEvent` (link_layer.hpp). -/
inductive LinkEvent where
  | evReady
  | frameSent
  | frameReceived
  | crcError
  | evError
  | outgoingDataAvailable
  | incomingDataAvailable
  deriving DecidableEq

/-- Observable actions of the link layer: events reported to the stack
manager and payloads forwarded to the upper layer. -/
inductive LinkOut where
  | ev (e : LinkEvent)
  | deliverUp (payload : List Nat)
  deriving DecidableEq

/-- The mutable state of `LinkLayer`: `state_`, the egress buffer
(`outgoing_buffer_` with `outgoing_buffer_length_`) and the ingress
buffer (`incoming_buffer_` with `incoming_buffer_length_`).  The
per-call scratch buffers (`frame_buffer_`, `encoded_buffer_`,
`decode_buffer_`) are temporaries of the modelled operations. -/
structure LinkLayerState where
  state : LinkState
  outgoing : List Nat
  incoming : List Nat
  deriving DecidableEq

/-- Embeds `LinkLayer::reset` (link_layer.cpp lines 43-48): state back to READY,
`encoded_length_ = 0` (scratch), `READY` event; the byte buffers are not
touched. -/
def LinkLayer.reset (st : LinkLayerState) : LinkLayerState × List LinkOut :=
  ({ st with state := .ready }, [.ev .evReady])

/-- Embeds `LinkLayer::send` (link_layer.cpp lines 50-111).  `data` models a
non-null payload pointer and `down_layer` is attached, so the null checks
cannot fire.  `encoded_length_` is declared `uint16_t` (link_layer.hpp),
so a negative `COBS::encode` result is stored wrapped modulo 2^16
(`enc` then holds the bytes actually written, none) and the subsequent
`encoded_length_ < 0` check is dead: the int promotion of a `uint16_t`
is never negative.  On that wrapped-error path the delimiter store
`encoded_buffer_[encoded_length_]` is out of bounds and the claimed
length 65530 then always exceeds the egress capacity, so the call falls
through to `LINK_ERROR_BUFFER_FULL` (the queueing else-branch is
unreachable there).  Returns the C result code, the post state, and the
emitted events. -/
def LinkLayer.send (st : LinkLayerState) (data : List Nat) :
    Int × LinkLayerState × List LinkOut :=
  if data.length > LINK_MAX_PAYLOAD_SIZE then
    (LINK_ERROR_INVALID_PARAM, st, [.ev .evError])
  else
    -- auto-reset from error state on new transmission
    let (st1, outs1) :=
      if st.state = LinkState.error then LinkLayer.reset st else (st, [])
    -- frame: [TYPE(1) | LENGTH(1) | PAYLOAD(n) | CRC16(2)], CRC little-endian
    let header := [LINK_FRAME_TYPE_DATA, data.length] ++ data
    let crc := crc16 header
    let frame := header ++ [crc % 256, (crc >>> 8) % 256]
    -- encoded_length_ = COBS::encode(..., LINK_MAX_FRAME_SIZE), as uint16_t
    let (enc, encodedLength) : List Nat × Nat :=
      match cobsEncodeC frame LINK_MAX_FRAME_SIZE with
      | .ok E => (E, E.length)
      | .error e => ([], (e % 65536).toNat)
    if (encodedLength : Int) < 0 then
      -- dead branch: encoded_length_ is unsigned, its promotion is ≥ 0
      (LINK_ERROR_GENERAL, { st1 with state := .error }, outs1 ++ [.ev .evError])
    else
      -- encoded_buffer_[encoded_length_] = COBS_DELIMITER; encoded_length_++
      let encodedLength := encodedLength + 1
      if st1.outgoing.length + encodedLength > LINK_OUTGOING_BUFFER_SIZE then
        (LINK_ERROR_BUFFER_FULL, st1, outs1 ++ [.ev .evError])
      else
        (LINK_SUCCESS, { st1 with outgoing := st1.outgoing ++ enc ++ [0] },
          outs1 ++ [.ev .outgoingDataAvailable])

/-- Running `cobsDecodeC` on a non-empty input consumes between 1 byte and the
whole input when it succeeds. -/
theorem cobsDecodeC_consumed_bounds (l : List Nat) (osize : Nat)
    (out : List Nat) (c : Nat) (hne : l.length ≠ 0)
    (h : cobsDecodeC l osize = .ok (out, c)) : 1 ≤ c ∧ c ≤ l.length := by
  rw [cobsDecodeC, if_neg hne] at h
  rcases hfd : findDelim l with _ | fe
  · simp only [hfd] at h
    exact absurd h (by simp)
  · simp only [hfd] at h
    have hlt := findDelim_lt_length l fe hfd
    by_cases hfe : fe = 0
    · rw [if_pos hfe] at h
      simp at h
      omega
    · rw [if_neg hfe] at h
      by_cases hos : osize < fe
      · rw [if_pos hos] at h
        simp at h
      · rw [if_neg hos] at h
        rcases hdb : cobsDecodeBlock (l.take fe) with _ | out'
        · simp only [hdb] at h
          exact absurd h (by simp)
        · simp only [hdb] at h
          simp at h
          omega

/-- Embeds `LinkLayer::process_incoming_data` (link_layer.cpp lines 141-220):
the resynchronization loop.  Each iteration decodes the ingress buffer;
`INCOMPLETE` returns; any other failure or a decoded frame shorter than
`LINK_MIN_FRAME_SIZE` drops exactly one byte and retries; otherwise the
frame is validated (length, CRC, type), `consumed` bytes are removed and
the loop continues. -/
def processIncomingData (st : LinkLayerState) : LinkLayerState × List LinkOut :=
  if hin : st.incoming.length = 0 then (st, [])
  else
    match hdec : cobsDecodeC st.incoming LINK_MAX_FRAME_SIZE with
    | .error e =>
      if e = COBS_ERROR_INCOMPLETE then (st, []) -- wait for more data
      else
        -- invalid frame: drop one byte, parse rest of data
        processIncomingData { st with incoming := st.incoming.tail }
    | .ok (decoded, consumed) =>
      if decoded.length < LINK_MIN_FRAME_SIZE then
        -- invalid frame: drop one byte, parse rest of data
        processIncomingData { st with incoming := st.incoming.tail }
      else
        let payload_length := decoded.getD 1 0
        if payload_length > LINK_MAX_PAYLOAD_SIZE ∨
            decoded.length ≠ payload_length + LINK_MIN_FRAME_SIZE then
          processIncomingData { st with incoming := st.incoming.drop consumed }
        else
          let received_crc := (decoded.getD (decoded.length - 2) 0 % 256) |||
            ((decoded.getD (decoded.length - 1) 0) <<< 8)
          let computed_crc := crc16 (decoded.take (decoded.length - LINK_CRC_SIZE))
          if computed_crc = received_crc then
            if decoded.getD 0 0 = LINK_FRAME_TYPE_DATA then
              -- forward payload to upper layer, then FRAME_RECEIVED
              let rest := processIncomingData
                { st with state := .ready, incoming := st.incoming.drop consumed }
              (rest.1, [.deliverUp ((decoded.drop LINK_HEADER_SIZE).take payload_length),
                .ev .frameReceived] ++ rest.2)
            else
              -- unknown frame type: enter ERROR silently
              processIncomingData
                { st with state := .error, incoming := st.incoming.drop consumed }
          else
            let rest := processIncomingData
              { st with state := .error, incoming := st.incoming.drop consumed }
            (rest.1, [.ev .crcError] ++ rest.2)
  termination_by st.incoming.length
  decreasing_by
    all_goals first
      | (simp only [List.length_tail]; omega)
      | (have hbounds := cobsDecodeC_consumed_bounds st.incoming
           LINK_MAX_FRAME_SIZE decoded consumed hin hdec
         simp only [List.length_drop]; omega)

/-- C6: In `LinkLayer::process_incoming_data`, whenever a COBS decode
attempt on the ingress buffer fails (other than with `INCOMPLETE`) or
succeeds with a decoded length smaller than `LINK_MIN_FRAME_SIZE` (4),
exactly one byte is removed from the front of the ingress buffer before
retrying; on `INCOMPLETE` the function returns with the ingress buffer
unchanged. -/
theorem C6_resync_drop_one_byte (st : LinkLayerState) :
    (∀ e : Int, cobsDecodeC st.incoming LINK_MAX_FRAME_SIZE = .error e →
      e ≠ COBS_ERROR_INCOMPLETE →
      processIncomingData st =
        processIncomingData { st with incoming := st.incoming.tail }) ∧
    (∀ (out : List Nat) (c : Nat),
      cobsDecodeC st.incoming LINK_MAX_FRAME_SIZE = .ok (out, c) →
      out.length < LINK_MIN_FRAME_SIZE → st.incoming.length ≠ 0 →
      processIncomingData st =
        processIncomingData { st with incoming := st.incoming.tail }) ∧
    (cobsDecodeC st.incoming LINK_MAX_FRAME_SIZE = .error COBS_ERROR_INCOMPLETE →
      processIncomingData st = (st, [])) := by
  refine ⟨?_, ?_, ?_⟩
  · intro e hdec he
    have hne : st.incoming.length ≠ 0 := by
      intro h0
      rw [cobsDecodeC, if_pos h0] at hdec
      exact absurd hdec (by simp)
    conv_lhs => rw [processIncomingData]
    rw [dif_neg hne]
    split
    next e' heq =>
      rw [hdec] at heq
      injection heq with h'
      subst h'
      rw [if_neg he]
    next decoded consumed heq =>
      rw [hdec] at heq
      exact absurd heq (by simp)
  · intro out c hdec hshort hne
    conv_lhs => rw [processIncomingData]
    rw [dif_neg hne]
    split
    next e' heq =>
      rw [hdec] at heq
      exact absurd heq (by simp)
    next decoded consumed heq =>
      rw [hdec] at heq
      simp only [Except.ok.injEq, Prod.mk.injEq] at heq
      obtain ⟨h1, h2⟩ := heq
      subst h1
      subst h2
      rw [if_pos hshort]
  · intro hdec
    have hne : st.incoming.length ≠ 0 := by
      intro h0
      rw [cobsDecodeC, if_pos h0] at hdec
      exact absurd hdec (by simp)
    conv_lhs => rw [processIncomingData]
    rw [dif_neg hne]
    split
    next e' heq =>
      rw [hdec] at heq
      injection heq with h'
      subst h'
      rw [if_pos rfl]
    next decoded consumed heq =>
      rw [hdec] at heq
      exact absurd heq (by simp)

theorem cobsDecodeC_eval_invalid :
    cobsDecodeC [3, 1, 0] LINK_MAX_FRAME_SIZE = .error COBS_ERROR_INVALID_INPUT := by
  simp [cobsDecodeC, findDelim, cobsDecodeBlock, LINK_MAX_FRAME_SIZE]

theorem cobsDecodeC_eval_short :
    cobsDecodeC [2, 5, 0] LINK_MAX_FRAME_SIZE = .ok ([5], 3) := by
  simp [cobsDecodeC, findDelim, cobsDecodeBlock, LINK_MAX_FRAME_SIZE, COBS_MAX_CODE]

theorem cobsDecodeC_eval_incomplete :
    cobsDecodeC [5] LINK_MAX_FRAME_SIZE = .error COBS_ERROR_INCOMPLETE := by
  simp [cobsDecodeC, findDelim]

theorem cobsDecodeC_eval_too_small :
    cobsDecodeC (List.replicate 255 1 ++ [0]) LINK_MAX_FRAME_SIZE =
      .error COBS_ERROR_OUTPUT_TOO_SMALL := by
  have h0 : (0 : Nat) ∉ List.replicate 255 1 := by
    intro h
    have := List.eq_of_mem_replicate h
    omega
  have hfd := findDelim_append_zero _ h0
  rw [cobsDecodeC]
  rw [if_neg (by simp)]
  simp only [hfd, List.length_replicate]
  rw [if_neg (by omega), if_pos (by simp [LINK_MAX_FRAME_SIZE])]

/-- Witness for `C6_resync_drop_one_byte`: a malformed block
(`[3, 1, 0]`, code byte over-runs the frame), a well-formed but short
block (`[2, 5, 0]` decodes to the 1-byte frame `[5]`), a delimiter-free
buffer (`[5]`, INCOMPLETE), and a buffer whose first delimiter lies past
the 254-byte `LINK_MAX_FRAME_SIZE` decode capacity (OUTPUT_TOO_SMALL,
also a one-byte drop). -/
theorem C6_resync_drop_one_byte_witness :
    (processIncomingData ⟨.ready, [], [3, 1, 0]⟩ =
       processIncomingData ⟨.ready, [], [1, 0]⟩) ∧
    (processIncomingData ⟨.ready, [], [2, 5, 0]⟩ =
       processIncomingData ⟨.ready, [], [5, 0]⟩) ∧
    (processIncomingData ⟨.ready, [], [5]⟩ = (⟨.ready, [], [5]⟩, [])) ∧
    (processIncomingData ⟨.ready, [], List.replicate 255 1 ++ [0]⟩ =
       processIncomingData ⟨.ready, [], (List.replicate 255 1 ++ [0]).tail⟩) :=
  ⟨(C6_resync_drop_one_byte ⟨.ready, [], [3, 1, 0]⟩).1 COBS_ERROR_INVALID_INPUT
      cobsDecodeC_eval_invalid (by decide),
   (C6_resync_drop_one_byte ⟨.ready, [], [2, 5, 0]⟩).2.1 [5] 3
      cobsDecodeC_eval_short (by decide) (by decide),
   (C6_resync_drop_one_byte ⟨.ready, [], [5]⟩).2.2 cobsDecodeC_eval_incomplete,
   (C6_resync_drop_one_byte ⟨.ready, [], List.replicate 255 1 ++ [0]⟩).1
      COBS_ERROR_OUTPUT_TOO_SMALL cobsDecodeC_eval_too_small (by decide)⟩

/-- C10: If `LinkLayer::send` is called with valid parameters while the
layer is in the ERROR state, the state is reset to READY before the
egress-space check, so even a call failing with `LINK_ERROR_BUFFER_FULL`
leaves the layer in READY; the only possible outcomes are
`LINK_ERROR_BUFFER_FULL` and `LINK_SUCCESS`.  This covers both encode
outcomes: a successful encode (payloads up to 249 bytes) reaches the
egress-space check directly, and a failed encode (a 250-byte payload
overflows the 254-byte `LINK_MAX_FRAME_SIZE` output capacity) wraps the
negative result in the `uint16_t` `encoded_length_`, skips the dead
negative check, and also ends in `LINK_ERROR_BUFFER_FULL` with the state
already READY. -/
theorem C10_failed_send_clears_error (st : LinkLayerState) (data : List Nat)
    (hstate : st.state = LinkState.error)
    (hlen : data.length ≤ LINK_MAX_PAYLOAD_SIZE) :
    (LinkLayer.send st data).2.1.state = LinkState.ready ∧
    ((LinkLayer.send st data).1 = LINK_ERROR_BUFFER_FULL ∨
      (LinkLayer.send st data).1 = LINK_SUCCESS) := by
  simp only [LINK_MAX_PAYLOAD_SIZE] at hlen
  rw [LinkLayer.send]
  rw [if_neg (by simp only [LINK_MAX_PAYLOAD_SIZE]; omega)]
  rw [if_pos hstate]
  rcases hE : cobsEncodeC (([LINK_FRAME_TYPE_DATA, data.length] ++ data) ++
      [crc16 ([LINK_FRAME_TYPE_DATA, data.length] ++ data) % 256,
        (crc16 ([LINK_FRAME_TYPE_DATA, data.length] ++ data) >>> 8) % 256])
      LINK_MAX_FRAME_SIZE with e | E
  · simp only [LinkLayer.reset, hE]
    rw [if_neg (not_lt.mpr (Int.natCast_nonneg _))]
    by_cases hbuf : st.outgoing.length + ((e % 65536).toNat + 1) >
        LINK_OUTGOING_BUFFER_SIZE
    · rw [if_pos hbuf]
      exact ⟨rfl, Or.inl rfl⟩
    · rw [if_neg hbuf]
      exact ⟨rfl, Or.inr rfl⟩
  · simp only [LinkLayer.reset, hE]
    rw [if_neg (not_lt.mpr (Int.natCast_nonneg _))]
    by_cases hbuf : st.outgoing.length + (E.length + 1) >
        LINK_OUTGOING_BUFFER_SIZE
    · rw [if_pos hbuf]
      exact ⟨rfl, Or.inl rfl⟩
    · rw [if_neg hbuf]
      exact ⟨rfl, Or.inr rfl⟩

/-- Witness for `C10_failed_send_clears_error`: an ERROR-state layer with
a nearly full egress buffer; the send fails with `BUFFER_FULL` yet the
post state is READY. -/
theorem C10_failed_send_clears_error_witness :
    (LinkLayer.send ⟨.error, List.replicate 510 7, []⟩ [1, 2, 3]).2.1.state =
      LinkState.ready ∧
    ((LinkLayer.send ⟨.error, List.replicate 510 7, []⟩ [1, 2, 3]).1 =
        LINK_ERROR_BUFFER_FULL ∨
      (LinkLayer.send ⟨.error, List.replicate 510 7, []⟩ [1, 2, 3]).1 =
        LINK_SUCCESS) :=
  C10_failed_send_clears_error ⟨.error, List.replicate 510 7, []⟩ [1, 2, 3]
    rfl (by decide)

/-! ## Transport layer (src/unnamed/part_002 = transport_layer.cpp,
src/unnamed/part_005 = transport_layer.hpp) -/

/-- Constant `TRANSPORT_PACKET_TYPE_SYN` (transport_layer.hpp). -/
def TRANSPORT_PACKET_TYPE_SYN : Nat := 0x01

/-- Constant `TRANSPORT_PACKET_TYPE_SYN_ACK`. -/
def TRANSPORT_PACKET_TYPE_SYN_ACK : Nat := 0x02

/-- Constant `TRANSPORT_PACKET_TYPE_ACK`. -/
def TRANSPORT_PACKET_TYPE_ACK : Nat := 0x03

/-- Constant `TRANSPORT_PACKET_TYPE_FIN`. -/
def TRANSPORT_PACKET_TYPE_FIN : Nat := 0x04

/-- Constant `TRANSPORT_PACKET_TYPE_FIN_ACK`. -/
def TRANSPORT_PACKET_TYPE_FIN_ACK : Nat := 0x05

/-- Constant `TRANSPORT_PACKET_TYPE_DATA`. -/
def TRANSPORT_PACKET_TYPE_DATA : Nat := 0x06

/-- Constant `TRANSPORT_PACKET_TYPE_DATA_ACK`. -/
def TRANSPORT_PACKET_TYPE_DATA_ACK : Nat := 0x07

/-- Constant `TRANSPORT_PACKET_TYPE_DATA_NACK`. -/
def TRANSPORT_PACKET_TYPE_DATA_NACK : Nat := 0x08

/-- Constant `TRANSPORT_PACKET_TYPE_KEEPALIVE`. -/
def TRANSPORT_PACKET_TYPE_KEEPALIVE : Nat := 0x09

/-- Constant `TRANSPORT_PACKET_TYPE_KEEPALIVE_ACK`. -/
def TRANSPORT_PACKET_TYPE_KEEPALIVE_ACK : Nat := 0x0A

/-- Constant `TRANSPORT_PACKET_TYPE_DATAGRAM`. -/
def TRANSPORT_PACKET_TYPE_DATAGRAM : Nat := 0x0B

/-- Constant `TRANSPORT_PACKET_TYPE_MAX`. -/
def TRANSPORT_PACKET_TYPE_MAX : Nat := 0x0C

/-- Constant `TRANSPORT_CONNECTION_ID_INVALID`. -/
def TRANSPORT_CONNECTION_ID_INVALID : Nat := 0x00

/-- Constant `TRANSPORT_CONNECTION_ID_START`. -/
def TRANSPORT_CONNECTION_ID_START : Nat := 0x01

/-- Constant `TRANSPORT_HEADER_SIZE` — TYPE + CONN_ID + SEQ + LENGTH. -/
def TRANSPORT_HEADER_SIZE : Nat := 4

/-- Constant `TRANSPORT_MAX_PACKET_SIZE = LINK_MAX_PAYLOAD_SIZE` (250). -/
def TRANSPORT_MAX_PACKET_SIZE : Nat := LINK_MAX_PAYLOAD_SIZE

/-- Constant `TRANSPORT_MAX_PAYLOAD_SIZE = TRANSPORT_MAX_PACKET_SIZE -
TRANSPORT_HEADER_SIZE` (246). -/
def TRANSPORT_MAX_PAYLOAD_SIZE : Nat :=
  TRANSPORT_MAX_PACKET_SIZE - TRANSPORT_HEADER_SIZE

/-- Constant `TRANSPORT_MAX_RETRIES`. -/
def TRANSPORT_MAX_RETRIES : Nat := 3

/-- Constant `TRANSPORT_SUCCESS`. -/
def TRANSPORT_SUCCESS : Int := 0

/-- Constant `TRANSPORT_ERROR_INVALID_PARAMS = ERROR_RANGE_TRANSPORT` (-96). -/
def TRANSPORT_ERROR_INVALID_PARAMS : Int := -96

/-- Constant `TRANSPORT_ERROR_SEND_FAILED = ERROR_RANGE_TRANSPORT - 7`. -/
def TRANSPORT_ERROR_SEND_FAILED : Int := -103

/-- Constant `TRANSPORT_ERROR_INVALID_STATE = ERROR_RANGE_TRANSPORT - 8`. -/
def TRANSPORT_ERROR_INVALID_STATE : Int := -104

/-- Enum `TransportState` (transport_layer.hpp). -/
inductive TState where
  | disconnected
  | listening
  | connecting
  | connected
  | disconnecting
  | errorState
  deriving DecidableEq

/-- Enum `TransportLayerEvent` (transport_layer.hpp). -/
inductive TEvent where
  | messageReceived
  | evDisconnected
  | evConnected
  | evInit
  | evError
  | evTimeout
  | readyForData
  | readyForConnection
  deriving DecidableEq

/-- Observable actions of the transport layer: bytes handed to
`down_layer->send`, events to `report_event`, stream payloads to
`manager_->on_receive`, datagram payloads to `manager_->on_datagram`. -/
inductive TOut where
  | toLink (bytes : List Nat)
  | ev (e : TEvent)
  | deliver (payload : List Nat)
  | datagram (payload : List Nat)
  deriving DecidableEq

/-- The mutable state of `TransportLayer` (fields of part_005 lines
218-240).  `last_tx_length_` is `lastTxBuffer.length` (the pair is always
written and read together); `tx_buffer_` is a per-call scratch.  All
byte-sized fields hold values < 256 in reachable states; times are u32
values. -/
structure TransportLayerState where
  state : TState
  connectRetries : Nat
  lastKeepaliveAckTime : Nat
  sequenceNumber : Nat
  peerSequenceNumber : Nat
  awaitingAck : Bool
  lastTxTime : Nat
  retryCount : Nat
  waitingResponse : Bool
  lastTickTime : Nat
  connectionId : Nat
  lastTxBuffer : List Nat
  keepaliveInterval : Nat
  connectionTimeout : Nat
  deriving DecidableEq

namespace TransportLayer

/-- Embeds `TransportLayer::send` (part_002 lines 162-209).  `data` models a
non-null pointer, `down_layer` is attached; `now` is
`get_current_time_ms()` and `linkResult` the value returned by
`down_layer->send`.  Note: `awaiting_ack_` is not assigned anywhere in
this function (the code sets `waiting_response_` instead). -/
def send (st : TransportLayerState) (data : List Nat) (now : Nat)
    (linkResult : Int) : Int × TransportLayerState × List TOut :=
  if data.length = 0 ∨ data.length > TRANSPORT_MAX_PAYLOAD_SIZE then
    (TRANSPORT_ERROR_INVALID_PARAMS, st, [])
  else if st.state ≠ TState.connected then
    (TRANSPORT_ERROR_INVALID_STATE, st, [])
  else
    -- packet built directly in last_tx_buffer_:
    -- [TYPE(1) | CONN_ID(1) | SEQ(1) | LENGTH(1) | PAYLOAD(n)]
    let packet := [TRANSPORT_PACKET_TYPE_DATA, st.connectionId,
      st.sequenceNumber, data.length] ++ data
    let st1 := { st with lastTxBuffer := packet }
    if linkResult < 0 then
      (linkResult, st1, [.toLink packet])
    else
      (TRANSPORT_SUCCESS,
        { st1 with
          waitingResponse := true
          lastTxTime := now
          sequenceNumber := (st1.sequenceNumber + 1) % 256 },
        [.toLink packet])

/-- Embeds `TransportLayer::send_datagram` (part_002 lines 825-857). -/
def sendDatagram (st : TransportLayerState) (data : List Nat)
    (linkResult : Int) : Int × TransportLayerState × List TOut :=
  if data.length > TRANSPORT_MAX_PAYLOAD_SIZE then
    (TRANSPORT_ERROR_INVALID_PARAMS, st, [])
  else
    -- datagram packet: [TYPE(1) | LENGTH(1) | DATA(n)]
    let packet := [TRANSPORT_PACKET_TYPE_DATAGRAM, data.length] ++ data
    if linkResult < 0 then
      (TRANSPORT_ERROR_SEND_FAILED, st, [.toLink packet])
    else
      (linkResult, st, [.toLink packet])

/-- Embeds `TransportLayer::send_syn_ack` (part_002 lines 501-517): increments
the connection id (skipping 0) before using it. -/
def sendSynAck (st : TransportLayerState) :
    TransportLayerState × List TOut :=
  let cid0 := (st.connectionId + 1) % 256
  let cid := if cid0 = TRANSPORT_CONNECTION_ID_INVALID then
    TRANSPORT_CONNECTION_ID_START else cid0
  ({ st with connectionId := cid },
    [.toLink [TRANSPORT_PACKET_TYPE_SYN_ACK, cid, st.sequenceNumber, 0]])

/-- Embeds `TransportLayer::handle_syn_packet` (part_002 lines 574-617).  The
peer sequence number is stored before any validation. -/
def handleSynPacket (st : TransportLayerState)
    (connectionId seq now : Nat) : TransportLayerState × List TOut :=
  let st := { st with peerSequenceNumber := seq }
  if st.state = TState.connected ∧
      connectionId = TRANSPORT_CONNECTION_ID_INVALID then
    -- client reset detected
    ({ st with state := .disconnected }, [.ev .evError])
  else if st.state ≠ TState.listening then (st, [])
  else if connectionId ≠ TRANSPORT_CONNECTION_ID_INVALID then (st, [])
  else
    sendSynAck { st with
      state := .connecting
      waitingResponse := true
      sequenceNumber := now &&& 0xFF }

/-- Embeds `TransportLayer::handle_syn_ack_packet` (part_002 lines 619-644).
No connection-id check is performed. -/
def handleSynAckPacket (st : TransportLayerState)
    (connectionId seq now : Nat) : TransportLayerState × List TOut :=
  if st.state ≠ TState.connecting then (st, [])
  else
    ({ st with
        connectionId := connectionId
        peerSequenceNumber := seq
        state := .connected
        waitingResponse := false
        connectRetries := 0
        lastKeepaliveAckTime := now },
      [.toLink [TRANSPORT_PACKET_TYPE_ACK, connectionId, seq, 0],
        .ev .evConnected])

/-- Embeds `TransportLayer::handle_ack_packet` (part_002 lines 646-679). -/
def handleAckPacket (st : TransportLayerState)
    (connectionId seq now : Nat) : TransportLayerState × List TOut :=
  if connectionId ≠ st.connectionId then (st, [])
  else if st.state = TState.connecting then
    if seq = st.sequenceNumber then
      ({ st with
          state := .connected
          waitingResponse := false
          connectRetries := 0
          lastKeepaliveAckTime := now },
        [.ev .evConnected])
    else (st, [])
  else if st.state = TState.disconnecting then
    ({ st with
        state := .disconnected
        waitingResponse := false
        connectionId := TRANSPORT_CONNECTION_ID_INVALID },
      [.ev .evDisconnected])
  else (st, [])

/-- Embeds `TransportLayer::handle_fin_packet` (part_002 lines 681-706). -/
def handleFinPacket (st : TransportLayerState) (connectionId : Nat) :
    TransportLayerState × List TOut :=
  if connectionId ≠ st.connectionId then (st, [])
  else if st.state ≠ TState.connected then (st, [])
  else
    ({ st with state := .disconnecting, waitingResponse := true },
      [.toLink [TRANSPORT_PACKET_TYPE_ACK, connectionId, st.sequenceNumber, 0],
        .toLink [TRANSPORT_PACKET_TYPE_FIN, st.connectionId,
          st.sequenceNumber, 0]])

/-- Embeds `TransportLayer::handle_fin_ack_packet` (part_002 lines 708-729). -/
def handleFinAckPacket (st : TransportLayerState) (connectionId : Nat) :
    TransportLayerState × List TOut :=
  if connectionId ≠ st.connectionId then (st, [])
  else if st.state ≠ TState.disconnecting then (st, [])
  else
    ({ st with state := .disconnected, waitingResponse := false },
      [.ev .evDisconnected])

/-- Embeds `TransportLayer::handle_data_ack_packet` (part_002 lines 731-750).
The C++ comparison `sequence_number != sequence_number_ - 1` promotes
both `uint8_t` operands to `int`, so the subtraction is over ℤ, not
modulo 256. -/
def handleDataAckPacket (st : TransportLayerState)
    (connectionId seq : Nat) : TransportLayerState × List TOut :=
  if connectionId ≠ st.connectionId then (st, [])
  else if ¬st.awaitingAck ∨ (seq : Int) ≠ (st.sequenceNumber : Int) - 1 then
    (st, [])
  else
    ({ st with awaitingAck := false, retryCount := 0 }, [])

/-- Embeds `TransportLayer::handle_data_nack_packet` (part_002 lines 752-773);
same promoted-int sequence comparison as the ACK handler. -/
def handleDataNackPacket (st : TransportLayerState)
    (connectionId seq : Nat) : TransportLayerState × List TOut :=
  if connectionId ≠ st.connectionId then (st, [])
  else if ¬st.awaitingAck ∨ (seq : Int) ≠ (st.sequenceNumber : Int) - 1 then
    (st, [])
  else
    -- resend the packet using last_tx_buffer_
    (st, [.toLink st.lastTxBuffer])

/-- Embeds `TransportLayer::handle_keepalive_packet` (part_002 lines 775-792). -/
def handleKeepalivePacket (st : TransportLayerState) (connectionId : Nat) :
    Int × TransportLayerState × List TOut :=
  if connectionId ≠ st.connectionId then (-1, st, [])
  else
    (0, st, [.toLink [TRANSPORT_PACKET_TYPE_KEEPALIVE_ACK,
      st.connectionId, 0, 0]])

/-- Embeds `TransportLayer::handle_keepalive_ack_packet` (part_002 lines
794-809). -/
def handleKeepaliveAckPacket (st : TransportLayerState)
    (connectionId now : Nat) : Int × TransportLayerState × List TOut :=
  if connectionId ≠ st.connectionId then (-1, st, [])
  else (0, { st with lastKeepaliveAckTime := now }, [])

/-- Embeds `TransportLayer::handle_data_packet` (part_002 lines 357-405). -/
def handleDataPacket (st : TransportLayerState) (data : List Nat) :
    Int × TransportLayerState × List TOut :=
  let connectionId := data.getD 1 0
  let seq := data.getD 2 0
  if connectionId ≠ st.connectionId then (-1, st, [])
  else
    let payload := data.drop TRANSPORT_HEADER_SIZE
    if seq ≠ st.peerSequenceNumber then
      (-1, st, [.toLink [TRANSPORT_PACKET_TYPE_DATA_NACK,
        st.connectionId, seq, 0]])
    else
      (0, { st with peerSequenceNumber := (st.peerSequenceNumber + 1) % 256 },
        [.deliver payload,
          .toLink [TRANSPORT_PACKET_TYPE_DATA_ACK, st.connectionId, seq, 0]])

/-- Embeds `TransportLayer::handle_datagram_packet` (part_002 lines 862-875). -/
def handleDatagramPacket (st : TransportLayerState) (data : List Nat) :
    Int × TransportLayerState × List TOut :=
  (0, st, [.datagram (data.drop 2)])

/-- Embeds `TransportLayer::on_receive` (part_002 lines 214-352): the packet
dispatch switch.  `data` is the received packet. -/
def onReceive (st : TransportLayerState) (data : List Nat) (now : Nat) :
    Int × TransportLayerState × List TOut :=
  if data.length = 0 then (-1, st, [])
  else if data.length < TRANSPORT_HEADER_SIZE then (-1, st, [])
  else
    let ptype := data.getD 0 0
    let connectionId := data.getD 1 0
    let seq := data.getD 2 0
    if ptype ≥ TRANSPORT_PACKET_TYPE_MAX then (-1, st, [])
    else if ptype = TRANSPORT_PACKET_TYPE_SYN then
      if st.state = TState.listening ∨ st.state = TState.connected then
        let r := handleSynPacket st connectionId seq now
        (0, r.1, r.2)
      else (-1, st, [])
    else if ptype = TRANSPORT_PACKET_TYPE_SYN_ACK then
      if st.state = TState.connecting then
        let r := handleSynAckPacket st connectionId seq now
        (0, r.1, r.2)
      else (-1, st, [])
    else if ptype = TRANSPORT_PACKET_TYPE_ACK then
      if st.state = TState.connecting ∨ st.state = TState.disconnecting then
        let r := handleAckPacket st connectionId seq now
        (0, r.1, r.2)
      else (-1, st, [])
    else if ptype = TRANSPORT_PACKET_TYPE_FIN then
      if st.state = TState.connected then
        let r := handleFinPacket st connectionId
        (0, r.1, r.2)
      else (-1, st, [])
    else if ptype = TRANSPORT_PACKET_TYPE_FIN_ACK then
      if st.state = TState.disconnecting then
        let r := handleFinAckPacket st connectionId
        (0, r.1, r.2)
      else (-1, st, [])
    else if ptype = TRANSPORT_PACKET_TYPE_DATA then
      if st.state = TState.connected then handleDataPacket st data
      else (-1, st, [])
    else if ptype = TRANSPORT_PACKET_TYPE_DATA_ACK then
      if st.state = TState.connected then
        let r := handleDataAckPacket st connectionId seq
        (0, r.1, r.2)
      else (-1, st, [])
    else if ptype = TRANSPORT_PACKET_TYPE_DATA_NACK then
      if st.state = TState.connected then
        let r := handleDataNackPacket st connectionId seq
        (0, r.1, r.2)
      else (-1, st, [])
    else if ptype = TRANSPORT_PACKET_TYPE_KEEPALIVE then
      if st.state = TState.connected then handleKeepalivePacket st connectionId
      else (-1, st, [])
    else if ptype = TRANSPORT_PACKET_TYPE_KEEPALIVE_ACK then
      if st.state = TState.connected then
        handleKeepaliveAckPacket st connectionId now
      else (-1, st, [])
    else if ptype = TRANSPORT_PACKET_TYPE_DATAGRAM then
      if st.state ≠ TState.errorState then handleDatagramPacket st data
      else (-1, st, [])
    else (-1, st, [])

/-- The modulus of `uint32_t` arithmetic, `2^32`. -/
def U32 : Nat := 4294967296

/-- Wrapping `uint32_t` subtraction `a - b` on values `a b < 2^32`. -/
def u32sub (a b : Nat) : Nat := (a % U32 + (U32 - b % U32)) % U32

/-- Embeds `TransportLayer::tick` (part_002 lines 410-476).  `now` is
`get_current_time_ms()`; `elapsed_ms` is computed but unused in the
branches below. -/
def tick (st : TransportLayerState) (now : Nat) :
    TransportLayerState × List TOut :=
  let st := { st with lastTickTime := now }
  match st.state with
  | TState.connected =>
    if u32sub now st.lastKeepaliveAckTime > (st.keepaliveInterval * 3) % U32 then
      -- keep-alive timeout: start graceful disconnect
      ({ st with state := .disconnecting }, [.ev .evTimeout])
    else if u32sub now st.lastKeepaliveAckTime > st.keepaliveInterval then
      (st, [.toLink [TRANSPORT_PACKET_TYPE_KEEPALIVE, st.connectionId, 0, 0]])
    else (st, [])
  | TState.connecting =>
    if st.waitingResponse ∧ u32sub now st.lastTxTime > st.connectionTimeout then
      if st.connectRetries < TRANSPORT_MAX_RETRIES then
        ({ st with connectRetries := st.connectRetries + 1 },
          [.toLink [TRANSPORT_PACKET_TYPE_SYN, TRANSPORT_CONNECTION_ID_INVALID,
            st.sequenceNumber, 0]])
      else
        ({ st with state := .errorState }, [.ev .evTimeout])
    else (st, [])
  | TState.disconnecting =>
    if st.waitingResponse ∧ u32sub now st.lastTxTime > st.connectionTimeout then
      ({ st with
          state := .disconnected
          waitingResponse := false
          connectionId := TRANSPORT_CONNECTION_ID_INVALID },
        [.ev .evDisconnected])
    else (st, [])
  | _ => (st, [])

end TransportLayer

/-! ### Transport-layer theorems -/

/-- A concrete CONNECTED transport state used by the concrete-input
theorems: connection id 5, local sequence 0x42, peer sequence 7,
keep-alive interval 100 ms (cf. spec scenarios S2/S4/S5). -/
def sampleConnected : TransportLayerState :=
  { state := .connected
    connectRetries := 0
    lastKeepaliveAckTime := 0
    sequenceNumber := 0x42
    peerSequenceNumber := 7
    awaitingAck := false
    lastTxTime := 0
    retryCount := 0
    waitingResponse := false
    lastTickTime := 0
    connectionId := 5
    lastTxBuffer := []
    keepaliveInterval := 100
    connectionTimeout := 3000 }

/-- C2 (refuted, code bug): `TransportLayer::send` never assigns
`awaiting_ack_` — for every state and input the flag is unchanged (the
code sets `waiting_response_` instead), and in particular a successful
send from a CONNECTED state with the flag false leaves it false,
contradicting "a successful send in CONNECTED sets awaiting_ack to
true". -/
theorem C2_send_never_sets_awaiting_ack :
    (∀ (st : TransportLayerState) (data : List Nat) (now : Nat) (r : Int),
      (TransportLayer.send st data now r).2.1.awaitingAck = st.awaitingAck) ∧
    (TransportLayer.send sampleConnected [0xDE, 0xAD, 0xBE, 0xEF] 1000 0).1 =
      TRANSPORT_SUCCESS ∧
    (TransportLayer.send sampleConnected
      [0xDE, 0xAD, 0xBE, 0xEF] 1000 0).2.1.awaitingAck = false := by
  refine ⟨?_, by decide, by decide⟩
  intro st data now r
  simp only [TransportLayer.send]
  split_ifs <;> rfl

/-- C1 (refuted, code bug): after a successful `send` in CONNECTED
(payload `[DE AD BE EF]`, local sequence 0x42 → 0x43), a DATA_NACK with
matching connection id 5 and sequence `local_seq - 1 = 0x42` is received;
because `awaiting_ack_` was never set, `handle_data_nack_packet` returns
early: no bytes are handed to the link layer (no retransmission of
`last_tx_buffer_`) and the state is unchanged. -/
theorem C1_nack_does_not_retransmit :
    (TransportLayer.send sampleConnected [0xDE, 0xAD, 0xBE, 0xEF] 1000 0).1 =
      TRANSPORT_SUCCESS ∧
    (TransportLayer.send sampleConnected
      [0xDE, 0xAD, 0xBE, 0xEF] 1000 0).2.1.sequenceNumber = 0x43 ∧
    TransportLayer.onReceive
        (TransportLayer.send sampleConnected [0xDE, 0xAD, 0xBE, 0xEF] 1000 0).2.1
        [TRANSPORT_PACKET_TYPE_DATA_NACK, 5, 0x42, 0] 2000 =
      (0, (TransportLayer.send sampleConnected
        [0xDE, 0xAD, 0xBE, 0xEF] 1000 0).2.1, []) :=
  ⟨by decide, by decide, by decide⟩

/-- C7 (refuted, code bug): the DATA_ACK sequence check
`sequence_number != sequence_number_ - 1` is computed after promotion to
`int`: with `sequence_number_ = 0` and `awaiting_ack_ = true`, a matching
DATA_ACK carrying sequence 255 compares `255 ≠ 0 - 1 = -1`, returns
early, and leaves `awaiting_ack_` set — the claimed mod-256 wrap case
does not clear it. -/
theorem C7_wrap_ack_not_cleared :
    TransportLayer.handleDataAckPacket
        { sampleConnected with sequenceNumber := 0, awaitingAck := true } 5 255 =
      ({ sampleConnected with sequenceNumber := 0, awaitingAck := true }, []) ∧
    ({ sampleConnected with sequenceNumber := 0, awaitingAck := true } :
      TransportLayerState).awaitingAck = true := by
  decide

/-- C8 (refuted, code bug): `send_datagram` rejects a 247-byte payload
with `TRANSPORT_ERROR_INVALID_PARAMS` because it compares against
`TRANSPORT_MAX_PAYLOAD_SIZE` (246, the connection-oriented limit),
although the datagram header is only 2 bytes and transport_layer.hpp
documents datagram payloads up to 248. -/
theorem C8_datagram_247_rejected :
    TransportLayer.sendDatagram sampleConnected (List.replicate 247 1) 0 =
      (TRANSPORT_ERROR_INVALID_PARAMS, sampleConnected, []) := by
  decide

theorem u32sub_of_le (a b : Nat) (hb : b ≤ a) (ha : a < TransportLayer.U32) :
    TransportLayer.u32sub a b = a - b := by
  simp only [TransportLayer.u32sub, TransportLayer.U32] at *
  omega

/-- C9: On a tick in CONNECTED state: if the time since the last received
KEEPALIVE_ACK exceeds 3× the keepalive interval, the layer moves to
DISCONNECTING and emits TIMEOUT (and sends no KEEPALIVE on that tick);
otherwise, if that time exceeds the keepalive interval, a KEEPALIVE
packet is sent and the state remains CONNECTED. -/
theorem C9_connected_tick (st : TransportLayerState) (now : Nat)
    (hconn : st.state = TState.connected)
    (hnow : now < TransportLayer.U32)
    (hlast : st.lastKeepaliveAckTime ≤ now)
    (hki : st.keepaliveInterval * 3 < TransportLayer.U32) :
    (now - st.lastKeepaliveAckTime > st.keepaliveInterval * 3 →
      TransportLayer.tick st now =
        ({ st with lastTickTime := now, state := .disconnecting },
          [.ev .evTimeout])) ∧
    (now - st.lastKeepaliveAckTime ≤ st.keepaliveInterval * 3 →
      now - st.lastKeepaliveAckTime > st.keepaliveInterval →
      TransportLayer.tick st now =
        ({ st with lastTickTime := now },
          [.toLink [TRANSPORT_PACKET_TYPE_KEEPALIVE, st.connectionId, 0, 0]])) := by
  have hsub : TransportLayer.u32sub now st.lastKeepaliveAckTime =
      now - st.lastKeepaliveAckTime := u32sub_of_le _ _ hlast hnow
  have hmod : (st.keepaliveInterval * 3) % TransportLayer.U32 =
      st.keepaliveInterval * 3 := Nat.mod_eq_of_lt hki
  constructor
  · intro h
    rw [TransportLayer.tick]
    simp only [hconn, hsub, hmod]
    rw [if_pos h]
  · intro h1 h2
    rw [TransportLayer.tick]
    simp only [hconn, hsub, hmod]
    rw [if_neg (by omega), if_pos h2]

/-- Witness for `C9_connected_tick`: keep-alive interval 100, last ACK at
time 0.  At tick time 301 the 3× timeout fires; at tick time 150 a
KEEPALIVE is sent. -/
theorem C9_connected_tick_witness :
    (TransportLayer.tick sampleConnected 301 =
      ({ sampleConnected with lastTickTime := 301, state := .disconnecting },
        [.ev .evTimeout])) ∧
    (TransportLayer.tick sampleConnected 150 =
      ({ sampleConnected with lastTickTime := 150 },
        [.toLink [TRANSPORT_PACKET_TYPE_KEEPALIVE, 5, 0, 0]])) :=
  ⟨(C9_connected_tick sampleConnected 301 rfl (by decide) (by decide)
      (by decide)).1 (by decide),
    (C9_connected_tick sampleConnected 150 rfl (by decide) (by decide)
      (by decide)).2 (by decide) (by decide)⟩

/-- C4: In CONNECTED state, a DATA packet with matching connection id and
sequence equal to `peer_sequence_number_` is delivered upward, answered
with DATA_ACK, and the peer sequence is incremented mod 256; any other
sequence triggers a DATA_NACK carrying that sequence, is never delivered,
and leaves the state (including `peer_sequence_number_`) unchanged. -/
theorem C4_data_packet (st : TransportLayerState) (data : List Nat) (now : Nat)
    (hconn : st.state = TState.connected)
    (hlen : TRANSPORT_HEADER_SIZE ≤ data.length)
    (htype : data.getD 0 0 = TRANSPORT_PACKET_TYPE_DATA)
    (hcid : data.getD 1 0 = st.connectionId) :
    (data.getD 2 0 = st.peerSequenceNumber →
      TransportLayer.onReceive st data now =
        (0, { st with peerSequenceNumber := (st.peerSequenceNumber + 1) % 256 },
          [.deliver (data.drop TRANSPORT_HEADER_SIZE),
            .toLink [TRANSPORT_PACKET_TYPE_DATA_ACK, st.connectionId,
              data.getD 2 0, 0]])) ∧
    (data.getD 2 0 ≠ st.peerSequenceNumber →
      TransportLayer.onReceive st data now =
        (-1, st, [.toLink [TRANSPORT_PACKET_TYPE_DATA_NACK, st.connectionId,
          data.getD 2 0, 0]])) := by
  have hne0 : ¬ data.length = 0 := by
    simp only [TRANSPORT_HEADER_SIZE] at hlen; omega
  have hge : ¬ data.length < TRANSPORT_HEADER_SIZE := by
    simp only [TRANSPORT_HEADER_SIZE] at hlen ⊢; omega
  constructor
  · intro hseq
    rw [TransportLayer.onReceive, if_neg hne0, if_neg hge]
    simp only [htype]
    rw [if_neg (by decide), if_neg (by decide), if_neg (by decide),
      if_neg (by decide), if_neg (by decide), if_neg (by decide),
      if_pos trivial, if_pos hconn]
    simp only [TransportLayer.handleDataPacket]
    rw [if_neg (not_ne_iff.mpr hcid), if_neg (not_ne_iff.mpr hseq)]
  · intro hseq
    rw [TransportLayer.onReceive, if_neg hne0, if_neg hge]
    simp only [htype]
    rw [if_neg (by decide), if_neg (by decide), if_neg (by decide),
      if_neg (by decide), if_neg (by decide), if_neg (by decide),
      if_pos trivial, if_pos hconn]
    simp only [TransportLayer.handleDataPacket]
    rw [if_neg (not_ne_iff.mpr hcid), if_pos hseq]

/-- Witness for `C4_data_packet`: packet `[06 05 07 01 AB]` (DATA,
conn 5, seq 7 = peer seq) is delivered and ACKed; packet
`[06 05 09 01 AB]` (seq 9 ≠ 7) is NACKed and not delivered. -/
theorem C4_data_packet_witness :
    (TransportLayer.onReceive sampleConnected [6, 5, 7, 1, 0xAB] 100 =
      (0, { sampleConnected with peerSequenceNumber := 8 },
        [.deliver [0xAB],
          .toLink [TRANSPORT_PACKET_TYPE_DATA_ACK, 5, 7, 0]])) ∧
    (TransportLayer.onReceive sampleConnected [6, 5, 9, 1, 0xAB] 100 =
      (-1, sampleConnected,
        [.toLink [TRANSPORT_PACKET_TYPE_DATA_NACK, 5, 9, 0]])) :=
  ⟨(C4_data_packet sampleConnected [6, 5, 7, 1, 0xAB] 100 rfl (by decide)
      (by decide) (by decide)).1 (by decide),
    (C4_data_packet sampleConnected [6, 5, 9, 1, 0xAB] 100 rfl (by decide)
      (by decide) (by decide)).2 (by decide)⟩


/-! ### C5: connection-id filtering -/

theorem handleAckPacket_mismatch (st : TransportLayerState) (cid seq now : Nat)
    (h : cid ≠ st.connectionId) :
    TransportLayer.handleAckPacket st cid seq now = (st, []) := by
  rw [TransportLayer.handleAckPacket, if_pos h]

theorem handleFinPacket_mismatch (st : TransportLayerState) (cid : Nat)
    (h : cid ≠ st.connectionId) :
    TransportLayer.handleFinPacket st cid = (st, []) := by
  rw [TransportLayer.handleFinPacket, if_pos h]

theorem handleFinAckPacket_mismatch (st : TransportLayerState) (cid : Nat)
    (h : cid ≠ st.connectionId) :
    TransportLayer.handleFinAckPacket st cid = (st, []) := by
  rw [TransportLayer.handleFinAckPacket, if_pos h]

theorem handleDataAckPacket_mismatch (st : TransportLayerState) (cid seq : Nat)
    (h : cid ≠ st.connectionId) :
    TransportLayer.handleDataAckPacket st cid seq = (st, []) := by
  rw [TransportLayer.handleDataAckPacket, if_pos h]

theorem handleDataNackPacket_mismatch (st : TransportLayerState) (cid seq : Nat)
    (h : cid ≠ st.connectionId) :
    TransportLayer.handleDataNackPacket st cid seq = (st, []) := by
  rw [TransportLayer.handleDataNackPacket, if_pos h]

theorem handleKeepalivePacket_mismatch (st : TransportLayerState) (cid : Nat)
    (h : cid ≠ st.connectionId) :
    TransportLayer.handleKeepalivePacket st cid = (-1, st, []) := by
  rw [TransportLayer.handleKeepalivePacket, if_pos h]

theorem handleKeepaliveAckPacket_mismatch (st : TransportLayerState)
    (cid now : Nat) (h : cid ≠ st.connectionId) :
    TransportLayer.handleKeepaliveAckPacket st cid now = (-1, st, []) := by
  rw [TransportLayer.handleKeepaliveAckPacket, if_pos h]

theorem handleDataPacket_mismatch (st : TransportLayerState) (data : List Nat)
    (h : data.getD 1 0 ≠ st.connectionId) :
    TransportLayer.handleDataPacket st data = (-1, st, []) := by
  simp only [TransportLayer.handleDataPacket]
  rw [if_pos h]

/-- C5 (amended): in every transport state, a received connection-oriented
packet of type ACK, FIN, FIN_ACK, DATA, DATA_ACK, DATA_NACK, KEEPALIVE or
KEEPALIVE_ACK whose CONN_ID does not equal `connection_id_` is dropped
with no effect on the transport state and no output.  The exceptions
beyond SYN-in-LISTENING are the two remaining types: a SYN overwrites
`peer_sequence_number_` before any check (and CONN_ID 0 is accepted in
LISTENING / acts as client reset in CONNECTED), and a SYN_ACK received in
CONNECTING is processed without any connection-id check. -/
theorem C5_conn_id_filter (st : TransportLayerState) (data : List Nat)
    (now : Nat) (hlen : TRANSPORT_HEADER_SIZE ≤ data.length)
    (htype : data.getD 0 0 ∈ [TRANSPORT_PACKET_TYPE_ACK,
      TRANSPORT_PACKET_TYPE_FIN, TRANSPORT_PACKET_TYPE_FIN_ACK,
      TRANSPORT_PACKET_TYPE_DATA, TRANSPORT_PACKET_TYPE_DATA_ACK,
      TRANSPORT_PACKET_TYPE_DATA_NACK, TRANSPORT_PACKET_TYPE_KEEPALIVE,
      TRANSPORT_PACKET_TYPE_KEEPALIVE_ACK])
    (hcid : data.getD 1 0 ≠ st.connectionId) :
    (TransportLayer.onReceive st data now).2.1 = st ∧
    (TransportLayer.onReceive st data now).2.2 = [] := by
  have hne0 : ¬ data.length = 0 := by
    simp only [TRANSPORT_HEADER_SIZE] at hlen; omega
  have hge : ¬ data.length < TRANSPORT_HEADER_SIZE := by
    simp only [TRANSPORT_HEADER_SIZE] at hlen ⊢; omega
  rw [TransportLayer.onReceive, if_neg hne0, if_neg hge]
  simp only [List.mem_cons, List.not_mem_nil, or_false] at htype
  rcases htype with h | h | h | h | h | h | h | h
  · -- ACK
    simp only [h]
    rw [if_neg (by decide), if_neg (by decide), if_neg (by decide),
      if_pos trivial]
    split_ifs with hst
    · rw [handleAckPacket_mismatch st (data.getD 1 0) (data.getD 2 0) now hcid]
      exact ⟨rfl, rfl⟩
    · exact ⟨rfl, rfl⟩
  · -- FIN
    simp only [h]
    rw [if_neg (by decide), if_neg (by decide), if_neg (by decide),
      if_neg (by decide), if_pos trivial]
    split_ifs with hst
    · rw [handleFinPacket_mismatch st (data.getD 1 0) hcid]
      exact ⟨rfl, rfl⟩
    · exact ⟨rfl, rfl⟩
  · -- FIN_ACK
    simp only [h]
    rw [if_neg (by decide), if_neg (by decide), if_neg (by decide),
      if_neg (by decide), if_neg (by decide), if_pos trivial]
    split_ifs with hst
    · rw [handleFinAckPacket_mismatch st (data.getD 1 0) hcid]
      exact ⟨rfl, rfl⟩
    · exact ⟨rfl, rfl⟩
  · -- DATA
    simp only [h]
    rw [if_neg (by decide), if_neg (by decide), if_neg (by decide),
      if_neg (by decide), if_neg (by decide), if_neg (by decide),
      if_pos trivial]
    split_ifs with hst
    · rw [handleDataPacket_mismatch st data hcid]
      exact ⟨rfl, rfl⟩
    · exact ⟨rfl, rfl⟩
  · -- DATA_ACK
    simp only [h]
    rw [if_neg (by decide), if_neg (by decide), if_neg (by decide),
      if_neg (by decide), if_neg (by decide), if_neg (by decide),
      if_neg (by decide), if_pos trivial]
    split_ifs with hst
    · rw [handleDataAckPacket_mismatch st (data.getD 1 0) (data.getD 2 0) hcid]
      exact ⟨rfl, rfl⟩
    · exact ⟨rfl, rfl⟩
  · -- DATA_NACK
    simp only [h]
    rw [if_neg (by decide), if_neg (by decide), if_neg (by decide),
      if_neg (by decide), if_neg (by decide), if_neg (by decide),
      if_neg (by decide), if_neg (by decide), if_pos trivial]
    split_ifs with hst
    · rw [handleDataNackPacket_mismatch st (data.getD 1 0) (data.getD 2 0) hcid]
      exact ⟨rfl, rfl⟩
    · exact ⟨rfl, rfl⟩
  · -- KEEPALIVE
    simp only [h]
    rw [if_neg (by decide), if_neg (by decide), if_neg (by decide),
      if_neg (by decide), if_neg (by decide), if_neg (by decide),
      if_neg (by decide), if_neg (by decide), if_neg (by decide),
      if_pos trivial]
    split_ifs with hst
    · rw [handleKeepalivePacket_mismatch st (data.getD 1 0) hcid]
      exact ⟨rfl, rfl⟩
    · exact ⟨rfl, rfl⟩
  · -- KEEPALIVE_ACK
    simp only [h]
    rw [if_neg (by decide), if_neg (by decide), if_neg (by decide),
      if_neg (by decide), if_neg (by decide), if_neg (by decide),
      if_neg (by decide), if_neg (by decide), if_neg (by decide),
      if_neg (by decide), if_pos trivial]
    split_ifs with hst
    · rw [handleKeepaliveAckPacket_mismatch st (data.getD 1 0) now hcid]
      exact ⟨rfl, rfl⟩
    · exact ⟨rfl, rfl⟩

/-- Witness for `C5_conn_id_filter`: a DATA_ACK with CONN_ID 9 arriving
while `connection_id_ = 5` leaves the state untouched and produces no
output. -/
theorem C5_conn_id_filter_witness :
    (TransportLayer.onReceive sampleConnected [7, 9, 4, 0] 700).2.1 =
      sampleConnected ∧
    (TransportLayer.onReceive sampleConnected [7, 9, 4, 0] 700).2.2 = [] :=
  C5_conn_id_filter sampleConnected [7, 9, 4, 0] 700 (by decide) (by decide)
    (by decide)

/-- C5 counterexample: in CONNECTING with `connection_id_ = 0` (the state
a client is in right after `connect()`), a SYN_ACK carrying CONN_ID 1 —
a connection-oriented packet whose CONN_ID differs from the current
`connection_id_`, and not a SYN in LISTENING — is processed and mutates
the transport state (the server-assigned id is adopted and the state
moves to CONNECTED), so the claim as stated is false. -/
theorem C5_counterexample :
    (TransportLayer.onReceive
        { sampleConnected with state := .connecting, connectionId := 0 }
        [TRANSPORT_PACKET_TYPE_SYN_ACK, 1, 9, 0] 500).2.1 ≠
      { sampleConnected with state := .connecting, connectionId := 0 } := by
  decide

end RobustSerial
